import Mathlib

/-!
Formal model of the simulation core of `src/main.js`, a small 3D collection
game.  Pure computations are translated directly from the source; the
THREE.js vector helpers the source calls (`addScaledVector`,
`multiplyScalar`, `crossVectors`, `normalize`, `setLength`, `lerp`,
`distanceToSquared`) are embedded following their three.js r159
implementations.  Numeric state is modelled over a linear ordered field so
that the collision arithmetic (which is exact) can be evaluated over ℚ,
while the motion integrator (which needs square roots and real powers) is
instantiated at ℝ.
-/

namespace Survival

/-- Three-component vector, the model of `THREE.Vector3`. -/
structure V3 (α : Type) where
  x : α
  y : α
  z : α
  deriving DecidableEq, Repr

variable {α : Type} [LinearOrderedField α]

/-- `Vector3.addScaledVector(b, s)`: componentwise `a + b * s`. -/
def V3.addScaled (a b : V3 α) (s : α) : V3 α :=
  ⟨a.x + b.x * s, a.y + b.y * s, a.z + b.z * s⟩

/-- `Vector3.multiplyScalar(s)`. -/
def V3.smul (a : V3 α) (s : α) : V3 α :=
  ⟨a.x * s, a.y * s, a.z * s⟩

/-- `Vector3.crossVectors(a, b)`: the standard cross product. -/
def V3.cross (a b : V3 α) : V3 α :=
  ⟨a.y * b.z - a.z * b.y, a.z * b.x - a.x * b.z, a.x * b.y - a.y * b.x⟩

/-- `Vector3.distanceToSquared(b)`: squared Euclidean distance. -/
def V3.distSq (a b : V3 α) : α :=
  (a.x - b.x) * (a.x - b.x) + (a.y - b.y) * (a.y - b.y) + (a.z - b.z) * (a.z - b.z)

/-- `Vector3.lerp(v, t)`: componentwise `this + (v - this) * t`. -/
def V3.lerp (a b : V3 α) (t : α) : V3 α :=
  ⟨a.x + (b.x - a.x) * t, a.y + (b.y - a.y) * t, a.z + (b.z - a.z) * t⟩

/-- `playerRadius = 0.8` (src/main.js line 8). -/
def playerRadius (α : Type) [LinearOrderedField α] : α := 8 / 10

/-- `WORLD_RADIUS = 40` (src/main.js line 16). -/
def worldRadius (α : Type) [LinearOrderedField α] : α := 40

/-- The player state the collision resolvers mutate: `player.position`,
`velocity` and `score` (score is integer valued throughout: it starts at 0
and changes by `+10` and `Math.max(0, score - 20)` only). -/
structure CollisionState (α : Type) where
  pos : V3 α
  vel : V3 α
  score : ℤ
  deriving DecidableEq, Repr

/-- `player.position.set(0, playerRadius, 0)` — the reset target used by
`startGame` (line 91) and the hazard response (line 239). -/
def centerPos (α : Type) [LinearOrderedField α] : V3 α :=
  ⟨0, playerRadius α, 0⟩

/-- One iteration of the loop body of `checkObstacleCollisions`
(src/main.js lines 234-247): with `r = playerRadius + 1.2`, a hit
(`d2 < r*r`) teleports the player to the center, zeroes the velocity and
applies `score = Math.max(0, score - 20)`.  The UI side effects
(`scoreEl`, `flashMessage`, `shakeCamera`) touch no simulation state. -/
def obstacleStep (st : CollisionState α) (ob : V3 α) : CollisionState α :=
  if st.pos.distSq ob < (playerRadius α + 12 / 10) * (playerRadius α + 12 / 10) then
    ⟨centerPos α, ⟨0, 0, 0⟩, max 0 (st.score - 20)⟩
  else st

/-- `checkObstacleCollisions` (src/main.js lines 233-248): a `for..of` pass
over all obstacles, each tested against the player's current (possibly
already reset) position. -/
def checkObstacleCollisions (st : CollisionState α) (obs : List (V3 α)) : CollisionState α :=
  List.foldl obstacleStep st obs

/-- Number of hazard hits `checkObstacleCollisions` fires: the test uses the
player position as it evolves during the pass (after a hit the position is
the arena center). -/
def hitsFrom : V3 α → List (V3 α) → ℕ
  | _, [] => 0
  | p, ob :: rest =>
    if p.distSq ob < (playerRadius α + 12 / 10) * (playerRadius α + 12 / 10) then
      hitsFrom (centerPos α) rest + 1
    else
      hitsFrom p rest

/-- The pickup hit test of `checkItemCollisions` (line 217-219):
`d2 < r*r` with `r = playerRadius + 0.9`. -/
def hitItem (p it : V3 α) : Bool :=
  decide (p.distSq it < (playerRadius α + 9 / 10) * (playerRadius α + 9 / 10))

/-- The index loop of `checkItemCollisions` (src/main.js lines 215-230):
`for (let i = items.length - 1; i >= 0; i--)`, where a hit removes
`items[i]` in place (`items.splice(i, 1)`, i.e. `take i ++ drop (i+1)`)
and adds the reward 10 to the score.  The respawn is only scheduled by a
`setTimeout` timer and adds nothing to `items` during the call; the UI
side effects touch no simulation state. -/
def itemLoop (p : V3 α) : ℕ → List (V3 α) → ℤ → List (V3 α) × ℤ
  | 0, items, score => (items, score)
  | i + 1, items, score =>
    match items[i]? with
    | none => itemLoop p i items score
    | some it =>
      if hitItem p it then
        itemLoop p i (items.take i ++ items.drop (i + 1)) (score + 10)
      else
        itemLoop p i items score

/-- `checkItemCollisions` (src/main.js lines 214-231). -/
def checkItemCollisions (p : V3 α) (items : List (V3 α)) (score : ℤ) : List (V3 α) × ℤ :=
  itemLoop p items.length items score

/-! ### Hazard kinematics (`updateObstacles`, src/main.js lines 200-212)

The trigonometric functions are abstracted as parameters `fcos fsin`: the
claims about this code are structural (which closed form is computed, and
that it is a function of the hazard parameters and the elapsed time only),
so no property of cosine or sine is needed, and keeping them abstract keeps
the definitions evaluable. -/

/-- Per-hazard orbital parameters, `ob.userData` (src/main.js line 125). -/
structure Hazard (α : Type) where
  phase : α
  radius : α
  speed : α
  deriving DecidableEq, Repr

/-- The position written by one iteration of `updateObstacles`
(src/main.js lines 205-209): first `ob.position.set(x, 1, z)`, then the
bobbing overwrite `ob.position.y = 1 + sin(t*speed + phase*0.3) * 0.5`. -/
def updateObstaclePosition (fcos fsin : α → α) (t : α) (ud : Hazard α) : V3 α :=
  let x := fcos (t * ud.speed + ud.phase) * ud.radius
  let z := fsin (t * ud.speed + ud.phase) * ud.radius
  let p : V3 α := ⟨x, 1, z⟩
  ⟨p.x, 1 + fsin (t * ud.speed + ud.phase * (3 / 10)) * (1 / 2), p.z⟩

/-- `updateObstacles` (src/main.js lines 200-212): every obstacle gets the
position above and the cosmetic yaw `rotation.y = t * speed`.  The `dt`
argument of the source function is ignored by its body; the time used is
`performance.now() / 1000`, passed here as `t`. -/
def updateObstacles (fcos fsin : α → α) (t : α) (obs : List (Hazard α)) :
    List (V3 α × α) :=
  obs.map fun ud => (updateObstaclePosition fcos fsin t ud, t * ud.speed)

/-- The closed form stated by the specification (section 4.2): x =
cos(t·speed + phase) × orbitRadius, y = baseHeight + sin(t·speed +
phase×0.3) × bobAmplitude with baseHeight 1 and bobAmplitude 0.5, z =
sin(t·speed + phase) × orbitRadius. -/
def specHazardPosition (fcos fsin : α → α) (phase radius speed t : α) : V3 α :=
  ⟨fcos (t * speed + phase) * radius,
    1 + fsin (t * speed + phase * (3 / 10)) * (1 / 2),
    fsin (t * speed + phase) * radius⟩

/-! ### Camera shake (`shakeCamera`, src/main.js lines 264-282)

`shakeCamera(amount, ms)` captures `orig = camera.position.clone()` at the
moment of the request, cancels the pending tick of any in-flight shake
(`cancelAnimationFrame(shakeTimeout)`), and then runs ticks: at a tick with
normalized elapsed fraction `t = (performance.now() - start) / ms`, if
`t >= 1` it copies `orig` back into the camera position and stops;
otherwise it offsets each camera axis from `orig` by
`(random - 0.5) * amount * (1 - t)` and reschedules.  The model below
makes the tick times and the random draws explicit inputs: a shake run is
a list of `(t, jitter)` pairs processed in order, stopping at the first
completing tick; a run whose list is exhausted without a completing tick
is an in-flight shake (its remaining ticks were cancelled). -/

/-- One shake tick (src/main.js lines 269-279) applied to the camera. -/
def shakeTick (orig : V3 α) (amount t : α) (j : V3 α) : V3 α :=
  ⟨orig.x + (j.x - 1 / 2) * amount * (1 - t),
    orig.y + (j.y - 1 / 2) * amount * (1 - t),
    orig.z + (j.z - 1 / 2) * amount * (1 - t)⟩

/-- A run of shake ticks from the captured origin `orig`: the camera
position after the listed ticks, stopping at the first tick with
`1 ≤ t` (which restores `orig`). -/
def shakeRun (orig : V3 α) (amount : α) : List (α × V3 α) → V3 α → V3 α
  | [], cam => cam
  | (t, j) :: rest, cam =>
    if 1 ≤ t then orig
    else shakeRun orig amount rest (shakeTick orig amount t j)

/-- Two overlapping `shakeCamera` requests: the first captures the current
camera position `cam0` as its origin and executes `ticksA` (all
non-completing if the second request arrives in flight); the second request
captures the camera position at that moment — jitter included — as its own
origin, the first shake's pending tick having been cancelled, and executes
`ticksB`. -/
def overlappingShakes (cam0 : V3 α) (amtA : α) (ticksA : List (α × V3 α))
    (amtB : α) (ticksB : List (α × V3 α)) : V3 α :=
  let camMid := shakeRun cam0 amtA ticksA cam0
  shakeRun camMid amtB ticksB camMid

/-! ### Motion controller (`updatePlayer`, src/main.js lines 147-198)

The integrator needs `Math.sqrt` (vector lengths) and `Math.pow` with a
real exponent (the damping factor), so this part of the model is
instantiated at ℝ with `Real.sqrt` and `Real.rpow`. -/

/-- `Vector3.length()`: the Euclidean norm. -/
noncomputable def V3.length (v : V3 ℝ) : ℝ :=
  Real.sqrt (v.x * v.x + v.y * v.y + v.z * v.z)

/-- `Vector3.normalize()`, three.js r159: `divideScalar(this.length() || 1)`.
A zero length is falsy, so the divisor falls back to 1 and the zero vector
normalizes to the zero vector instead of dividing by zero. -/
noncomputable def V3.normalize (v : V3 ℝ) : V3 ℝ :=
  let d := if v.length = 0 then 1 else v.length
  ⟨v.x / d, v.y / d, v.z / d⟩

/-- `Vector3.setLength(l)`, three.js r159: `normalize().multiplyScalar(l)`. -/
noncomputable def V3.setLength (v : V3 ℝ) (l : ℝ) : V3 ℝ :=
  v.normalize.smul l

/-- The held directional keys read by `updatePlayer` (lines 151-155): each
flag models the disjunction of the two key codes bound to that direction
(`KeyW || ArrowUp`, and so on). -/
structure Input where
  up : Bool
  down : Bool
  left : Bool
  right : Bool
  deriving DecidableEq, Repr

/-- `inputZ` accumulation of lines 152-153. -/
def inputZ (inp : Input) : ℝ :=
  (if inp.up then (-1 : ℝ) else 0) + (if inp.down then 1 else 0)

/-- `inputX` accumulation of lines 154-155. -/
def inputX (inp : Input) : ℝ :=
  (if inp.left then (-1 : ℝ) else 0) + (if inp.right then 1 else 0)

/-- The state `updatePlayer` mutates: `player.position` and `velocity`. -/
structure PlayerState where
  pos : V3 ℝ
  vel : V3 ℝ

/-- Lines 157-166: camera-relative steering.  `camDir` is the vector
written by `camera.getWorldDirection(forward)`, supplied by the camera
collaborator; its y component is zeroed, the result normalized, the right
vector derived by crossing world-up with it, and the force assembled with
`accel = 18`. -/
noncomputable def steeringForce (inp : Input) (camDir : V3 ℝ) : V3 ℝ :=
  let forward := (V3.mk camDir.x 0 camDir.z).normalize
  let rightV := ((V3.mk 0 1 0).cross forward).normalize
  ((V3.mk 0 0 0).addScaled forward (inputZ inp * 18)).addScaled rightV (inputX inp * 18)

/-- Lines 168-180: velocity integration `velocity += force * dt`, damping
`velocity *= Math.pow(0.8, dt*10)`, speed clamp at `maxSpeed = 10`
(`setLength` when `length() > 10`), position integration
`position += velocity * dt`, and the height pin
`position.y = playerRadius`. -/
noncomputable def freeMove (st : PlayerState) (inp : Input) (camDir : V3 ℝ) (dt : ℝ) :
    PlayerState :=
  let force := steeringForce inp camDir
  let v1 := (st.vel.addScaled force dt).smul (Real.rpow (8 / 10) (dt * 10))
  let v2 := if v1.length > 10 then v1.setLength 10 else v1
  let p1 := st.pos.addScaled v2 dt
  ⟨⟨p1.x, playerRadius ℝ, p1.z⟩, v2⟩

/-- `Math.sqrt(x*x + z*z)` of line 183: horizontal distance from the arena
center. -/
noncomputable def horizDist (p : V3 ℝ) : ℝ :=
  Real.sqrt (p.x * p.x + p.z * p.z)

/-- Lines 182-189: containment.  When the horizontal distance exceeds
`WORLD_RADIUS` the horizontal coordinates are rescaled by
`WORLD_RADIUS / dist` and the velocity damped by the factor 0.3. -/
noncomputable def containment (st : PlayerState) : PlayerState :=
  let dist := horizDist st.pos
  if dist > worldRadius ℝ then
    ⟨⟨st.pos.x * (worldRadius ℝ / dist), st.pos.y, st.pos.z * (worldRadius ℝ / dist)⟩,
      st.vel.smul (3 / 10)⟩
  else st

/-- `updatePlayer` (lines 147-198): free movement followed by containment.
The visual roll of lines 191-197 rotates the mesh orientation only and
touches neither position nor velocity, so it is outside the modelled
state; the `turnSpeed` constant of line 148 is unused by the source. -/
noncomputable def updatePlayer (st : PlayerState) (inp : Input) (camDir : V3 ℝ) (dt : ℝ) :
    PlayerState :=
  containment (freeMove st inp camDir dt)

/-- Line 12: `velocity = new THREE.Vector3()`, which is (0, 0, 0). -/
def velocityInit : V3 ℝ := ⟨0, 0, 0⟩

/-- Lines 91-92 of `startGame`: `player.position.set(0, playerRadius, 0)`
and `velocity.set(0, 0, 0)`. -/
noncomputable def startGameReset : PlayerState := ⟨⟨0, playerRadius ℝ, 0⟩, ⟨0, 0, 0⟩⟩

/-! ### Frame loop (`animate`, src/main.js lines 131-145) and camera -/

/-- `updateCamera` (lines 250-255): the position is blended toward
`(player.x, player.y + 6.5, player.z + 11)` with the fixed per-call lerp
factor 0.08; `lookAt` adjusts orientation only, which is outside the
modelled state. -/
noncomputable def updateCamera (camPos playerPos : V3 ℝ) : V3 ℝ :=
  let desired : V3 ℝ := ⟨playerPos.x, playerPos.y + 13 / 2, playerPos.z + 11⟩
  camPos.lerp desired (8 / 100)

/-- `Math.min(0.05, (now - lastTime) / 1000)` of line 134, for finite
arguments; the NaN behaviour of the same line is modelled separately by
`jsDt` below. -/
noncomputable def clampDt (now lastTime : ℝ) : ℝ :=
  min (1 / 20) ((now - lastTime) / 1000)

/-- The simulation state one frame reads and writes: player position and
velocity, score, live pickups, hazard parameters, the hazard positions
written by `updateObstacles`, and the camera position. -/
structure FrameState where
  pos : V3 ℝ
  vel : V3 ℝ
  score : ℤ
  items : List (V3 ℝ)
  hazards : List (Hazard ℝ)
  hazardPos : List (V3 ℝ)
  camPos : V3 ℝ

/-- One frame of `animate` (lines 132-145): the `started` guard, the
clamped delta-time, then `updatePlayer`, `updateObstacles` (which reads
`performance.now()`, equal here to the frame timestamp `now`),
`checkItemCollisions`, `checkObstacleCollisions`, `updateCamera`, in that
order.  Rendering and the re-scheduling of the next frame (and the
`lastTime = now` write it feeds) are outside the modelled state. -/
noncomputable def animate (started : Bool) (now lastTime : ℝ) (inp : Input)
    (camDir : V3 ℝ) (st : FrameState) : FrameState :=
  if !started then st else
  let dt := clampDt now lastTime
  let p1 := updatePlayer ⟨st.pos, st.vel⟩ inp camDir dt
  let hz := updateObstacles Real.cos Real.sin (now / 1000) st.hazards
  let ic := checkItemCollisions p1.pos st.items st.score
  let oc := checkObstacleCollisions ⟨p1.pos, p1.vel, ic.2⟩ (hz.map Prod.fst)
  let cam := updateCamera st.camPos oc.pos
  ⟨oc.pos, oc.vel, oc.score, ic.1, st.hazards, hz.map Prod.fst, cam⟩

/-! ### JavaScript number model for the first-frame NaN path

`startGame` (line 96) calls `animate()` with no argument, so inside
`animate` the parameter `now` is `undefined`; `undefined - lastTime`
coerces `undefined` to NaN, and `Math.min(0.05, NaN)` is NaN.  To state
this, finite JS numbers are modelled by ℚ plus an explicit NaN value with
the IEEE/ECMAScript propagation rules used on this code path: arithmetic
with a NaN operand is NaN, `Math.min` with a NaN argument is NaN,
comparisons with NaN are false, `Math.pow` with NaN exponent is NaN (and
NaN base with exponent 0 is 1), `Math.sqrt` of NaN (or of a negative
number) is NaN.  Infinities never arise on the modelled path (the only
division is by the constant 1000) and are left out of the model.  The
finite cases of `Math.pow` and `Math.sqrt` are abstracted as function
parameters, exactly as for the trigonometric functions above. -/

/-- A JavaScript number: finite (modelled by ℚ) or NaN. -/
inductive JsNum where
  | num : ℚ → JsNum
  | nan : JsNum
  deriving DecidableEq, Repr

/-- JS addition. -/
def JsNum.add : JsNum → JsNum → JsNum
  | JsNum.num a, JsNum.num b => JsNum.num (a + b)
  | _, _ => JsNum.nan

/-- JS subtraction. -/
def JsNum.sub : JsNum → JsNum → JsNum
  | JsNum.num a, JsNum.num b => JsNum.num (a - b)
  | _, _ => JsNum.nan

/-- JS multiplication. -/
def JsNum.mul : JsNum → JsNum → JsNum
  | JsNum.num a, JsNum.num b => JsNum.num (a * b)
  | _, _ => JsNum.nan

/-- JS division, on the paths taken here (nonzero divisor). -/
def JsNum.div : JsNum → JsNum → JsNum
  | JsNum.num a, JsNum.num b => if b = 0 then JsNum.nan else JsNum.num (a / b)
  | _, _ => JsNum.nan

/-- `Math.min`: NaN if either argument is NaN. -/
def JsNum.minJs : JsNum → JsNum → JsNum
  | JsNum.num a, JsNum.num b => JsNum.num (min a b)
  | _, _ => JsNum.nan

/-- The strict `<` comparison: false whenever an operand is NaN. -/
def JsNum.ltJs : JsNum → JsNum → Bool
  | JsNum.num a, JsNum.num b => decide (a < b)
  | _, _ => false

/-- `Math.pow` with the finite case abstracted as `f`. -/
def JsNum.powJs (f : ℚ → ℚ → ℚ) : JsNum → JsNum → JsNum
  | JsNum.num a, JsNum.num b => JsNum.num (f a b)
  | _, JsNum.nan => JsNum.nan
  | JsNum.nan, JsNum.num b => if b = 0 then JsNum.num 1 else JsNum.nan

/-- `Math.sqrt` with the finite nonnegative case abstracted as `g`. -/
def JsNum.sqrtJs (g : ℚ → ℚ) : JsNum → JsNum
  | JsNum.num a => if a < 0 then JsNum.nan else JsNum.num (g a)
  | JsNum.nan => JsNum.nan

/-- The `now` argument of `animate`: `none` models the argument-less call
`animate()` made by `startGame`, whose `undefined` coerces to NaN. -/
def jsArg : Option ℚ → JsNum
  | none => JsNum.nan
  | some q => JsNum.num q

/-- Line 134, `Math.min(0.05, (now - lastTime) / 1000)`, over JS
numbers. -/
def jsDt (now : Option ℚ) (lastTime : ℚ) : JsNum :=
  JsNum.minJs (JsNum.num (1 / 20))
    (JsNum.div (JsNum.sub (jsArg now) (JsNum.num lastTime)) (JsNum.num 1000))

/-- A vector of JS numbers. -/
structure V3J where
  x : JsNum
  y : JsNum
  z : JsNum
  deriving DecidableEq, Repr

/-- `addScaledVector` over JS numbers. -/
def V3J.addScaledJ (a b : V3J) (s : JsNum) : V3J :=
  ⟨a.x.add (b.x.mul s), a.y.add (b.y.mul s), a.z.add (b.z.mul s)⟩

/-- `multiplyScalar` over JS numbers. -/
def V3J.smulJ (v : V3J) (s : JsNum) : V3J :=
  ⟨v.x.mul s, v.y.mul s, v.z.mul s⟩

/-- `length()` over JS numbers. -/
def V3J.lengthJ (g : ℚ → ℚ) (v : V3J) : JsNum :=
  JsNum.sqrtJs g (((v.x.mul v.x).add (v.y.mul v.y)).add (v.z.mul v.z))

/-- `normalize()` over JS numbers: `divideScalar(this.length() || 1)`; both
0 and NaN are falsy, so either falls back to the divisor 1. -/
def V3J.normalizeJ (g : ℚ → ℚ) (v : V3J) : V3J :=
  let l := v.lengthJ g
  let d := if l = JsNum.num 0 ∨ l = JsNum.nan then JsNum.num 1 else l
  ⟨v.x.div d, v.y.div d, v.z.div d⟩

/-- `setLength(l)` over JS numbers. -/
def V3J.setLengthJ (g : ℚ → ℚ) (v : V3J) (l : JsNum) : V3J :=
  (v.normalizeJ g).smulJ l

/-- Lines 169-177 over JS numbers: velocity integration, damping, speed
clamp and position integration, returning (new velocity, new position). -/
def jsIntegrate (f : ℚ → ℚ → ℚ) (g : ℚ → ℚ) (vel force pos : V3J) (dt : JsNum) :
    V3J × V3J :=
  let v1 := (vel.addScaledJ force dt).smulJ
    (JsNum.powJs f (JsNum.num (8 / 10)) (dt.mul (JsNum.num 10)))
  let v2 := if (JsNum.num 10).ltJs (v1.lengthJ g) then v1.setLengthJ g (JsNum.num 10) else v1
  let p1 := pos.addScaledJ v2 dt
  (v2, p1)

/-! ## Helper lemmas -/

lemma max_zero_sub_chain (s n : ℤ) (hn : 0 ≤ n) :
    max 0 (max 0 (s - 20) - n) = max 0 (s - 20 - n) := by
  rcases le_total (s - 20) 0 with h | h
  · rw [max_eq_left h, max_eq_left (by linarith), max_eq_left (by linarith)]
  · rw [max_eq_right h]

/-- The loop of `checkItemCollisions`, characterized: the indices `< i`
still to be visited get filtered by the hit test, the reward 10 is added
once per hit among them, and the already-visited tail is untouched. -/
lemma itemLoop_spec (p : V3 α) (i : ℕ) :
    ∀ (items : List (V3 α)) (score : ℤ), i ≤ items.length →
      itemLoop p i items score =
        ((items.take i).filter (fun it => !hitItem p it) ++ items.drop i,
          score + 10 * ((items.take i).countP (fun it => hitItem p it))) := by
  induction i with
  | zero => intro items score _; simp [itemLoop]
  | succ i ih =>
    intro items score h
    have hlt : i < items.length := Nat.lt_of_succ_le h
    have hget : items[i]? = some items[i] := List.getElem?_eq_getElem hlt
    have htake : (items.take i).length = i := by
      rw [List.length_take]; omega
    by_cases hhit : hitItem p items[i] = true
    · simp only [itemLoop, hget, hhit, if_true]
      rw [ih (items.take i ++ items.drop (i + 1)) (score + 10)
        (by simp [List.length_take, List.length_drop]; omega)]
      rw [List.take_left' htake, List.drop_left' htake]
      rw [List.take_succ, hget]
      simp only [Option.toList_some, List.filter_append, List.countP_append,
        List.filter_cons, List.countP_cons, hhit, Bool.not_true, List.filter_nil,
        List.countP_nil, List.append_nil]
      simp only [Bool.false_eq_true, ite_false, if_true, List.append_nil, Prod.mk.injEq]
      refine ⟨by simp, ?_⟩
      push_cast
      ring
    · simp only [itemLoop, hget, hhit, if_false, Bool.false_eq_true, ite_false]
      rw [ih items score (Nat.le_of_succ_le h)]
      rw [List.take_succ, hget]
      have hdrop : items.drop i = items[i] :: items.drop (i + 1) :=
        List.drop_eq_getElem_cons hlt
      simp only [Option.toList_some, List.filter_append, List.countP_append,
        List.filter_cons, List.countP_cons, hhit, List.filter_nil,
        List.countP_nil, hdrop]
      simp [Bool.not_eq_true] at hhit
      simp [hhit, List.append_assoc]

/-- A shake run that reaches a completing tick (elapsed fraction ≥ 1)
restores its captured origin, whatever jitter accumulated before. -/
lemma shakeRun_complete (orig : V3 α) (amt : α) (ticks : List (α × V3 α))
    (h : ∃ tj ∈ ticks, 1 ≤ tj.1) : ∀ cam, shakeRun orig amt ticks cam = orig := by
  induction ticks with
  | nil => simp at h
  | cons tj rest ih =>
    intro cam
    rcases tj with ⟨t, j⟩
    rw [shakeRun]
    by_cases ht : 1 ≤ t
    · rw [if_pos ht]
    · rw [if_neg ht]
      apply ih
      obtain ⟨tj', htj', h1⟩ := h
      rcases List.mem_cons.mp htj' with heq | hmem
      · rw [heq] at h1
        exact absurd h1 ht
      · exact ⟨tj', hmem, h1⟩

/-! ## Claim theorems -/

/-- C1 counterexample: starting from camera position (0,0,0), a first
shake with amount 0.35 executes one tick at elapsed fraction 1/2 with
random draws 0.9 (offsetting each axis by (0.9−0.5)·0.35·(1−1/2) =
7/100); a second shake is then requested and runs to completion.  The
camera ends at the second shake's captured origin (7/100, 7/100, 7/100),
not at the pre-shake baseline (0,0,0): the claimed clean restore fails. -/
theorem shake_overlap_counterexample :
    overlappingShakes (α := ℚ) ⟨0, 0, 0⟩ (7 / 20) [(1 / 2, ⟨9 / 10, 9 / 10, 9 / 10⟩)]
        (7 / 20) [(1, ⟨0, 0, 0⟩)] ≠ ⟨0, 0, 0⟩ := by
  norm_num [overlappingShakes, shakeRun, shakeTick]

/-- C1 (amended): a new shake request cancels the in-flight shake's
pending ticks, and once the new shake completes the camera is restored to
the position captured at the moment of the new request — which may retain
the interrupted shake's last jitter offset rather than the original
pre-shake baseline.  Any single shake whose ticks reach a completing tick
(elapsed fraction ≥ 1) restores its own captured origin exactly, so a
shake that starts from an unshaken camera and runs to natural completion
restores the exact pre-shake position. -/
theorem shake_restores_request_position (cam0 : V3 α) (amtA amtB : α)
    (ticksA ticksB : List (α × V3 α)) (hB : ∃ tj ∈ ticksB, 1 ≤ tj.1) :
    (∀ orig cam, shakeRun orig amtB ticksB cam = orig) ∧
    overlappingShakes cam0 amtA ticksA amtB ticksB = shakeRun cam0 amtA ticksA cam0 := by
  refine ⟨fun orig cam => shakeRun_complete orig amtB ticksB hB cam, ?_⟩
  rw [overlappingShakes]
  exact shakeRun_complete _ amtB ticksB hB _

/-- Witness for the amended C1 statement at concrete inputs. -/
theorem shake_restores_request_position_witness :
    (∃ tj ∈ [((1 : ℚ), (⟨0, 0, 0⟩ : V3 ℚ))], 1 ≤ tj.1) ∧
    overlappingShakes (α := ℚ) ⟨0, 0, 0⟩ (7 / 20) [(1 / 2, ⟨9 / 10, 9 / 10, 9 / 10⟩)]
        (7 / 20) [(1, ⟨0, 0, 0⟩)] =
      shakeRun (α := ℚ) ⟨0, 0, 0⟩ (7 / 20) [(1 / 2, ⟨9 / 10, 9 / 10, 9 / 10⟩)] ⟨0, 0, 0⟩ :=
  ⟨⟨(1, ⟨0, 0, 0⟩), by simp, le_refl 1⟩,
    (shake_restores_request_position ⟨0, 0, 0⟩ (7 / 20) (7 / 20)
      [(1 / 2, ⟨9 / 10, 9 / 10, 9 / 10⟩)] [(1, ⟨0, 0, 0⟩)]
      ⟨(1, ⟨0, 0, 0⟩), by simp, le_refl 1⟩).2⟩

/-- C4: the position written by the hazard kinematics update equals the
specification's closed form (cos(t·speed + phase)·orbitRadius, 1 +
sin(t·speed + phase·0.3)·0.5, sin(t·speed + phase)·orbitRadius), and it is
a deterministic function of the hazard parameters and the elapsed time:
identical inputs give identical output. -/
theorem hazard_position_closed_form (fcos fsin : α → α) (h1 h2 : Hazard α) (t1 t2 : α)
    (hh : h1 = h2) (ht : t1 = t2) :
    updateObstaclePosition fcos fsin t1 h1 =
      specHazardPosition fcos fsin h2.phase h2.radius h2.speed t2 ∧
    updateObstaclePosition fcos fsin t1 h1 = updateObstaclePosition fcos fsin t2 h2 := by
  subst hh
  subst ht
  exact ⟨rfl, rfl⟩

/-- Witness for C4 at concrete inputs. -/
theorem hazard_position_closed_form_witness :
    ((⟨1, 2, 3⟩ : Hazard ℚ) = ⟨1, 2, 3⟩ ∧ (4 : ℚ) = 4) ∧
    (updateObstaclePosition (fun q => q) (fun q => q) 4 (⟨1, 2, 3⟩ : Hazard ℚ) =
        specHazardPosition (fun q => q) (fun q => q) 1 2 3 4 ∧
      updateObstaclePosition (fun q => q) (fun q => q) 4 (⟨1, 2, 3⟩ : Hazard ℚ) =
        updateObstaclePosition (fun q => q) (fun q => q) 4 ⟨1, 2, 3⟩) :=
  ⟨⟨rfl, rfl⟩,
    hazard_position_closed_form (fun q => q) (fun q => q) ⟨1, 2, 3⟩ ⟨1, 2, 3⟩ 4 4 rfl rfl⟩

/-- C2 counterexample: with the player at (10, 0.8, 10), score 100, and
hazards at (10, 0.8, 10) and (11, 0.8, 10), both hazards are within
collision radius of the player at the start of the frame, yet
`checkObstacleCollisions` applies only one penalty (final score 80, not
max(0, 100 − 2·20) = 60): the first hit teleports the player to the
center, and the second hazard is tested against the new position. -/
theorem hazard_simultaneous_counterexample :
    V3.distSq (α := ℚ) ⟨10, 4 / 5, 10⟩ ⟨10, 4 / 5, 10⟩ <
        (playerRadius ℚ + 12 / 10) * (playerRadius ℚ + 12 / 10) ∧
    V3.distSq (α := ℚ) ⟨10, 4 / 5, 10⟩ ⟨11, 4 / 5, 10⟩ <
        (playerRadius ℚ + 12 / 10) * (playerRadius ℚ + 12 / 10) ∧
    (checkObstacleCollisions (α := ℚ) ⟨⟨10, 4 / 5, 10⟩, ⟨0, 0, 0⟩, 100⟩
        [⟨10, 4 / 5, 10⟩, ⟨11, 4 / 5, 10⟩]).score = 80 ∧
    ¬ (checkObstacleCollisions (α := ℚ) ⟨⟨10, 4 / 5, 10⟩, ⟨0, 0, 0⟩, 100⟩
        [⟨10, 4 / 5, 10⟩, ⟨11, 4 / 5, 10⟩]).score = max 0 (100 - 20 * 2) := by
  norm_num [checkObstacleCollisions, obstacleStep, V3.distSq, playerRadius, centerPos,
    List.foldl]

/-- C2 (amended): `checkObstacleCollisions` tests each hazard against the
player's current position, which an earlier hit in the same pass may
already have reset to the arena center.  Each hazard that is within
collision radius at its test time sets the position to (0, playerRadius, 0)
and the velocity to zero and applies the penalty 20 with per-hit flooring;
the final score equals the initial score minus 20 per firing hazard,
floored at 0 (per-hit flooring and one final flooring agree). -/
theorem hazard_pass_resolved (st : CollisionState α) (obs : List (V3 α)) :
    checkObstacleCollisions st obs =
      if hitsFrom st.pos obs = 0 then st
      else ⟨centerPos α, ⟨0, 0, 0⟩, max 0 (st.score - 20 * (hitsFrom st.pos obs : ℤ))⟩ := by
  induction obs generalizing st with
  | nil => simp [checkObstacleCollisions, hitsFrom]
  | cons ob rest ih =>
    simp only [checkObstacleCollisions, List.foldl_cons] at ih ⊢
    rw [hitsFrom]
    by_cases h : st.pos.distSq ob < (playerRadius α + 12 / 10) * (playerRadius α + 12 / 10)
    · rw [if_pos h]
      simp only [obstacleStep, if_pos h]
      rw [ih]
      by_cases hk : hitsFrom (α := α) (centerPos α) rest = 0
      · rw [hk]; norm_num
      · rw [if_neg hk, if_neg (by omega : ¬hitsFrom (α := α) (centerPos α) rest + 1 = 0)]
        simp only [CollisionState.mk.injEq, true_and]
        rw [max_zero_sub_chain _ _ (by positivity)]
        push_cast
        ring_nf
    · rw [if_neg h]
      simp only [obstacleStep, if_neg h]
      exact ih st

/-- C3: `checkItemCollisions` visits every pickup (no early exit), removes
exactly the pickups within collision radius — the reverse index loop with
in-place `splice` computes precisely a filter —, adds the fixed reward 10
to the score once per collected pickup, and adds nothing to the active
set (the result is a sublist of the input; the replacement is only
scheduled on a timer). -/
theorem items_resolved (p : V3 α) (items : List (V3 α)) (score : ℤ) :
    checkItemCollisions p items score =
      (items.filter (fun it => !hitItem p it),
        score + 10 * (items.countP (fun it => hitItem p it))) ∧
    (checkItemCollisions p items score).1.Sublist items := by
  have h := itemLoop_spec p items.length items score (le_refl _)
  rw [List.take_length, List.drop_length, List.append_nil] at h
  refine ⟨by rw [checkItemCollisions, h], ?_⟩
  rw [checkItemCollisions, h]
  exact List.filter_sublist items

/-! ## Motion lemmas -/

lemma containment_pos_y (st : PlayerState) : (containment st).pos.y = st.pos.y := by
  rw [containment]
  split <;> rfl

lemma containment_horiz_le (st : PlayerState) :
    horizDist (containment st).pos ≤ worldRadius ℝ := by
  rw [containment]
  by_cases h : horizDist st.pos > worldRadius ℝ
  · rw [if_pos h]
    have hd0 : (0 : ℝ) < horizDist st.pos :=
      lt_trans (by norm_num [worldRadius]) h
    have hne : horizDist st.pos ≠ 0 := ne_of_gt hd0
    have hdd : horizDist st.pos * horizDist st.pos =
        st.pos.x * st.pos.x + st.pos.z * st.pos.z := by
      rw [horizDist]
      exact Real.mul_self_sqrt (add_nonneg (mul_self_nonneg _) (mul_self_nonneg _))
    rw [horizDist]
    dsimp only
    have heq :
        st.pos.x * (worldRadius ℝ / horizDist st.pos) *
            (st.pos.x * (worldRadius ℝ / horizDist st.pos)) +
          st.pos.z * (worldRadius ℝ / horizDist st.pos) *
            (st.pos.z * (worldRadius ℝ / horizDist st.pos)) =
        worldRadius ℝ * worldRadius ℝ := by
      have expand :
          st.pos.x * (worldRadius ℝ / horizDist st.pos) *
              (st.pos.x * (worldRadius ℝ / horizDist st.pos)) +
            st.pos.z * (worldRadius ℝ / horizDist st.pos) *
              (st.pos.z * (worldRadius ℝ / horizDist st.pos)) =
          (st.pos.x * st.pos.x + st.pos.z * st.pos.z) *
            (worldRadius ℝ / horizDist st.pos * (worldRadius ℝ / horizDist st.pos)) := by
        ring
      rw [expand, ← hdd]
      field_simp
    rw [heq, Real.sqrt_mul_self (by norm_num [worldRadius])]
  · rw [if_neg h]
    exact le_of_not_lt h

lemma length_zero_vec : V3.length ⟨0, 0, 0⟩ = 0 := by
  simp [V3.length]

lemma normalize_zero : V3.normalize ⟨0, 0, 0⟩ = (⟨0, 0, 0⟩ : V3 ℝ) := by
  simp [V3.normalize, length_zero_vec]

lemma steeringForce_degenerate (inp : Input) (camDir : V3 ℝ) (hx : camDir.x = 0)
    (hz : camDir.z = 0) : steeringForce inp camDir = ⟨0, 0, 0⟩ := by
  rw [steeringForce]
  rw [hx, hz, normalize_zero]
  simp [V3.cross, normalize_zero, V3.addScaled]

lemma normalize_y_eq_zero (v : V3 ℝ) (hv : v.y = 0) : (V3.normalize v).y = 0 := by
  rw [V3.normalize]
  dsimp only
  rw [hv, zero_div]

lemma steeringForce_y_eq_zero (inp : Input) (camDir : V3 ℝ) :
    (steeringForce inp camDir).y = 0 := by
  rw [steeringForce]
  have h1 : (V3.normalize ⟨camDir.x, 0, camDir.z⟩).y = 0 := normalize_y_eq_zero _ rfl
  have h2 : ((V3.mk (0 : ℝ) 1 0).cross (V3.normalize ⟨camDir.x, 0, camDir.z⟩)).y = 0 := by
    simp [V3.cross]
  have h3 :
      (V3.normalize ((V3.mk (0 : ℝ) 1 0).cross (V3.normalize ⟨camDir.x, 0, camDir.z⟩))).y = 0 :=
    normalize_y_eq_zero _ h2
  simp [V3.addScaled, h1, h3]

lemma setLength_y_eq_zero (v : V3 ℝ) (l : ℝ) (hv : v.y = 0) : (v.setLength l).y = 0 := by
  rw [V3.setLength]
  dsimp [V3.smul]
  rw [normalize_y_eq_zero v hv, zero_mul]

lemma freeMove_vel_y (st : PlayerState) (inp : Input) (camDir : V3 ℝ) (dt : ℝ)
    (hv : st.vel.y = 0) : (freeMove st inp camDir dt).vel.y = 0 := by
  rw [freeMove]
  have h1 :
      ((st.vel.addScaled (steeringForce inp camDir) dt).smul
        (Real.rpow (8 / 10) (dt * 10))).y = 0 := by
    dsimp [V3.addScaled, V3.smul]
    rw [hv, steeringForce_y_eq_zero]
    ring
  split
  · exact setLength_y_eq_zero _ _ h1
  · exact h1

lemma containment_vel_y (st : PlayerState) (hv : st.vel.y = 0) :
    (containment st).vel.y = 0 := by
  rw [containment]
  split
  · dsimp [V3.smul]
    rw [hv, zero_mul]
  · exact hv

lemma checkObstacleCollisions_vel_y (st : CollisionState α) (hv : st.vel.y = 0)
    (obs : List (V3 α)) : (checkObstacleCollisions st obs).vel.y = 0 := by
  induction obs generalizing st with
  | nil => exact hv
  | cons ob rest ih =>
    simp only [checkObstacleCollisions, List.foldl_cons] at ih ⊢
    apply ih
    rw [obstacleStep]
    split
    · rfl
    · exact hv

/-! ## Claim theorems on the motion controller and frame loop -/

/-- C5: the motion update is free integration followed by containment, in
that order, and after containment the player's horizontal distance from
the arena center never exceeds WORLD_RADIUS: positions already inside are
untouched, and positions outside are rescaled exactly onto the boundary
circle (with the velocity damped by 0.3, per the definition of
`containment`). -/
theorem containment_after_motion_bound (st : PlayerState) (inp : Input) (camDir : V3 ℝ)
    (dt : ℝ) :
    updatePlayer st inp camDir dt = containment (freeMove st inp camDir dt) ∧
    horizDist (updatePlayer st inp camDir dt).pos ≤ worldRadius ℝ :=
  ⟨rfl, containment_horiz_le _⟩

/-- C6: for every nonnegative delta-time, any input and any camera
heading, the motion update leaves the player's height exactly at
`playerRadius` (line 180 pins it, and containment never touches y). -/
theorem player_height_pinned (st : PlayerState) (inp : Input) (camDir : V3 ℝ) (dt : ℝ)
    (hdt : 0 ≤ dt) : (updatePlayer st inp camDir dt).pos.y = playerRadius ℝ := by
  rw [updatePlayer, containment_pos_y]
  rfl

/-- Witness for C6 at a concrete input. -/
theorem player_height_pinned_witness :
    (0 : ℝ) ≤ 0 ∧
    (updatePlayer ⟨⟨0, 0, 0⟩, ⟨0, 0, 0⟩⟩ ⟨false, false, false, false⟩ ⟨0, 0, -1⟩ 0).pos.y =
      playerRadius ℝ :=
  ⟨le_refl 0,
    player_height_pinned ⟨⟨0, 0, 0⟩, ⟨0, 0, 0⟩⟩ ⟨false, false, false, false⟩ ⟨0, 0, -1⟩ 0
      (le_refl 0)⟩

/-- C8: the motion update is total.  Normalizing the zero vector yields
the zero vector (three.js guards the divisor with `length() || 1`), and
when the groundplane projection of the camera forward vector is zero (so
the derived right vector is zero too) the steering force vanishes and the
update completes identically for every input. -/
theorem motion_total_zero_guard (camDir : V3 ℝ) (hx : camDir.x = 0) (hz : camDir.z = 0)
    (st : PlayerState) (i1 i2 : Input) (dt : ℝ) :
    V3.normalize ⟨0, 0, 0⟩ = (⟨0, 0, 0⟩ : V3 ℝ) ∧
    updatePlayer st i1 camDir dt = updatePlayer st i2 camDir dt := by
  refine ⟨normalize_zero, ?_⟩
  rw [updatePlayer, updatePlayer, freeMove, freeMove,
    steeringForce_degenerate i1 camDir hx hz, steeringForce_degenerate i2 camDir hx hz]

/-- Witness for C8: camera pointing straight down. -/
theorem motion_total_zero_guard_witness :
    ((⟨0, -1, 0⟩ : V3 ℝ).x = 0 ∧ (⟨0, -1, 0⟩ : V3 ℝ).z = 0) ∧
    (V3.normalize ⟨0, 0, 0⟩ = (⟨0, 0, 0⟩ : V3 ℝ) ∧
      updatePlayer ⟨⟨1, 2, 3⟩, ⟨0, 0, 0⟩⟩ ⟨true, false, false, false⟩ ⟨0, -1, 0⟩ 1 =
        updatePlayer ⟨⟨1, 2, 3⟩, ⟨0, 0, 0⟩⟩ ⟨false, false, true, false⟩ ⟨0, -1, 0⟩ 1) :=
  ⟨⟨rfl, rfl⟩,
    motion_total_zero_guard ⟨0, -1, 0⟩ rfl rfl ⟨⟨1, 2, 3⟩, ⟨0, 0, 0⟩⟩
      ⟨true, false, false, false⟩ ⟨false, false, true, false⟩ 1⟩

/-- C10: the vertical velocity component is always zero: it is zero at
initialization and at the `startGame` reset, the motion update preserves
it (the steering force is horizontal, damping and clamping only scale,
containment only scales), and the hazard response either leaves the
velocity alone or zeroes it. -/
theorem velocity_vertical_zero (st : PlayerState) (hv : st.vel.y = 0) (inp : Input)
    (camDir : V3 ℝ) (dt : ℝ) (cst : CollisionState ℝ) (hc : cst.vel.y = 0)
    (obs : List (V3 ℝ)) :
    velocityInit.y = 0 ∧ startGameReset.vel.y = 0 ∧
    (updatePlayer st inp camDir dt).vel.y = 0 ∧
    (checkObstacleCollisions cst obs).vel.y = 0 :=
  ⟨rfl, rfl,
    by rw [updatePlayer]; exact containment_vel_y _ (freeMove_vel_y st inp camDir dt hv),
    checkObstacleCollisions_vel_y cst hc obs⟩

/-- Witness for C10 at concrete inputs. -/
theorem velocity_vertical_zero_witness :
    ((⟨⟨0, 0, 0⟩, ⟨0, 0, 0⟩⟩ : PlayerState).vel.y = 0 ∧
      ((⟨⟨0, 0, 0⟩, ⟨0, 0, 0⟩, 0⟩ : CollisionState ℝ)).vel.y = 0) ∧
    (velocityInit.y = 0 ∧ startGameReset.vel.y = 0 ∧
      (updatePlayer ⟨⟨0, 0, 0⟩, ⟨0, 0, 0⟩⟩ ⟨true, true, false, false⟩ ⟨1, 0, 0⟩ 1).vel.y = 0 ∧
      (checkObstacleCollisions (⟨⟨0, 0, 0⟩, ⟨0, 0, 0⟩, 0⟩ : CollisionState ℝ)
        [⟨0, 0, 0⟩]).vel.y = 0) :=
  ⟨⟨rfl, rfl⟩,
    velocity_vertical_zero ⟨⟨0, 0, 0⟩, ⟨0, 0, 0⟩⟩ rfl ⟨true, true, false, false⟩ ⟨1, 0, 0⟩ 1
      ⟨⟨0, 0, 0⟩, ⟨0, 0, 0⟩, 0⟩ rfl [⟨0, 0, 0⟩]⟩

/-! ## Frame loop and JS-number lemmas -/

lemma JsNum.add_nan (x : JsNum) : x.add JsNum.nan = JsNum.nan := by
  cases x <;> rfl

lemma JsNum.mul_nan (x : JsNum) : x.mul JsNum.nan = JsNum.nan := by
  cases x <;> rfl

lemma JsNum.nan_mul (x : JsNum) : JsNum.nan.mul x = JsNum.nan := by
  cases x <;> rfl

lemma JsNum.powJs_nan (f : ℚ → ℚ → ℚ) (b : JsNum) :
    JsNum.powJs f b JsNum.nan = JsNum.nan := by
  cases b <;> rfl

lemma JsNum.ltJs_nan (x : JsNum) : x.ltJs JsNum.nan = false := by
  cases x <;> rfl

lemma ltJs_num_lengthJ_nan (g : ℚ → ℚ) :
    (JsNum.num 10).ltJs (V3J.lengthJ g ⟨JsNum.nan, JsNum.nan, JsNum.nan⟩) = false := rfl

lemma nan_vec_addScaled (a b : V3J) :
    a.addScaledJ b JsNum.nan = ⟨JsNum.nan, JsNum.nan, JsNum.nan⟩ := by
  rw [V3J.addScaledJ]
  rw [JsNum.mul_nan, JsNum.mul_nan, JsNum.mul_nan, JsNum.add_nan, JsNum.add_nan, JsNum.add_nan]

/-- C7: one frame of `animate` uses as its integration step exactly
`min(0.05, (now − lastTime)/1000)` and threads the state through
`updatePlayer`, `updateObstacles`, `checkItemCollisions`,
`checkObstacleCollisions` and `updateCamera` in that strict order; the
step never exceeds 0.05, and for a raw elapsed time of 0.2 seconds
(now − lastTime = 200 ms) the step used is exactly 0.05. -/
theorem frame_clamped_strict_order (now lastTime : ℝ) (inp : Input) (camDir : V3 ℝ)
    (st : FrameState) :
    animate true now lastTime inp camDir st =
      (let dt := clampDt now lastTime
       let p1 := updatePlayer ⟨st.pos, st.vel⟩ inp camDir dt
       let hz := updateObstacles Real.cos Real.sin (now / 1000) st.hazards
       let ic := checkItemCollisions p1.pos st.items st.score
       let oc := checkObstacleCollisions ⟨p1.pos, p1.vel, ic.2⟩ (hz.map Prod.fst)
       ⟨oc.pos, oc.vel, oc.score, ic.1, st.hazards, hz.map Prod.fst,
         updateCamera st.camPos oc.pos⟩) ∧
    clampDt now lastTime ≤ 1 / 20 ∧
    clampDt 200 0 = 1 / 20 := by
  refine ⟨rfl, min_le_left _ _, ?_⟩
  rw [clampDt, show ((200 : ℝ) - 0) / 1000 = 1 / 5 by norm_num,
    min_eq_left (by norm_num : (1 / 20 : ℝ) ≤ 1 / 5)]

/-- C9: `min(0.05, (now − lastTime)/1000)` bounds the step from above
only — a non-positive elapsed time is passed through unchanged — and on
the argument-less first call `animate()` made by `startGame` the step is
NaN (undefined − lastTime), which the integration of lines 169-177
propagates into every component of the new velocity and position. -/
theorem frame_step_nan_unbounded_below (now lastTime : ℝ)
    (h : (now - lastTime) / 1000 ≤ 0) (lastQ : ℚ) (f : ℚ → ℚ → ℚ) (g : ℚ → ℚ)
    (vel force pos : V3J) :
    clampDt now lastTime = (now - lastTime) / 1000 ∧
    jsDt none lastQ = JsNum.nan ∧
    (jsIntegrate f g vel force pos JsNum.nan).1 = ⟨JsNum.nan, JsNum.nan, JsNum.nan⟩ ∧
    (jsIntegrate f g vel force pos JsNum.nan).2 = ⟨JsNum.nan, JsNum.nan, JsNum.nan⟩ := by
  have hv1 :
      (vel.addScaledJ force JsNum.nan).smulJ
        (JsNum.powJs f (JsNum.num (8 / 10)) (JsNum.mul JsNum.nan (JsNum.num 10))) =
      ⟨JsNum.nan, JsNum.nan, JsNum.nan⟩ := by
    rw [nan_vec_addScaled]
    rfl
  refine ⟨?_, rfl, ?_, ?_⟩
  · rw [clampDt]
    exact min_eq_right (le_trans h (by norm_num))
  · rw [jsIntegrate]
    dsimp only
    rw [hv1, ltJs_num_lengthJ_nan g, if_neg Bool.false_ne_true]
  · rw [jsIntegrate]
    dsimp only
    rw [hv1, ltJs_num_lengthJ_nan g, if_neg Bool.false_ne_true]
    exact nan_vec_addScaled pos _

/-- Witness for C9 at concrete inputs (now = lastTime = 0 gives a zero, in
particular non-positive, elapsed time). -/
theorem frame_step_nan_unbounded_below_witness :
    ((0 : ℝ) - 0) / 1000 ≤ 0 ∧
    (clampDt 0 0 = ((0 : ℝ) - 0) / 1000 ∧
      jsDt none 0 = JsNum.nan ∧
      (jsIntegrate (fun _ _ => 0) (fun _ => 0) ⟨JsNum.num 0, JsNum.num 0, JsNum.num 0⟩
          ⟨JsNum.num 0, JsNum.num 0, JsNum.num 0⟩ ⟨JsNum.num 0, JsNum.num 0, JsNum.num 0⟩
          JsNum.nan).1 = ⟨JsNum.nan, JsNum.nan, JsNum.nan⟩ ∧
      (jsIntegrate (fun _ _ => 0) (fun _ => 0) ⟨JsNum.num 0, JsNum.num 0, JsNum.num 0⟩
          ⟨JsNum.num 0, JsNum.num 0, JsNum.num 0⟩ ⟨JsNum.num 0, JsNum.num 0, JsNum.num 0⟩
          JsNum.nan).2 = ⟨JsNum.nan, JsNum.nan, JsNum.nan⟩) :=
  ⟨by simp,
    frame_step_nan_unbounded_below 0 0 (by simp) 0 (fun _ _ => 0) (fun _ => 0)
      ⟨JsNum.num 0, JsNum.num 0, JsNum.num 0⟩ ⟨JsNum.num 0, JsNum.num 0, JsNum.num 0⟩
      ⟨JsNum.num 0, JsNum.num 0, JsNum.num 0⟩⟩

end Survival
